import Mathlib

/-!
Verification of the flowstate-cli core: a shallow embedding of the
data-manager, sync-engine and timer-daemon logic of the repository
(files data_manager.py, sync_engine.py, daemon.py, config.py,
local_db.py), with theorems settling the specified properties.

Conventions of the embedding:
* the local SQLite store is a `List` of records; a SQLAlchemy
  `query(...).filter(...).first()` followed by attribute mutation and
  `commit` is `updateFirst`; a bulk `update` is a `map`;
* `datetime.utcnow()` / `time.time()` instants are passed in as a `now : ℚ`
  argument;
* Python exceptions raised to the caller are `Except.error` / `Option.none`;
* Python truthiness tests on optional integers / strings / floats
  (`if not local_task.cloud_task_id`, `if not config.get_auth_token()`,
  `if self.active and self.start_time`) are modelled by explicit
  truthiness functions that are false at `none`, `0` and `""`.
-/

namespace FlowState

/-- Local task record: columns of `LocalTask` in local_db.py.
Column defaults: `is_completed = False`, `is_active = False`,
`needs_sync = True`, nullable columns are `Option`. -/
structure LocalTask where
  id : Nat
  user_id : Nat
  cloud_task_id : Option Nat
  description : String
  is_completed : Bool
  is_active : Bool
  created_at : Option ℚ
  completed_at : Option ℚ
  updated_at : Option ℚ
  last_synced_at : Option ℚ
  needs_sync : Bool
deriving Repr, DecidableEq

/-- Local pomodoro record: columns of `LocalPomodoro` in local_db.py. -/
structure LocalPomodoro where
  id : Nat
  user_id : Nat
  task_id : Option Nat
  cloud_pomodoro_id : Option Nat
  session_type : String
  duration_minutes : Int
  completed : Bool
  started_at : Option ℚ
  completed_at : Option ℚ
  updated_at : Option ℚ
  last_synced_at : Option ℚ
  needs_sync : Bool
deriving Repr, DecidableEq

/-- `query.filter(p).first()` followed by mutating the found record with `f`
and committing: returns the updated list together with the updated record,
or `none` when no record matches (the Python code then raises). -/
def updateFirst (p : α → Bool) (f : α → α) : List α → Option (List α × α)
  | [] => none
  | x :: xs =>
    if p x then some (f x :: xs, f x)
    else
      match updateFirst p f xs with
      | none => none
      | some (ys, y) => some (x :: ys, y)

namespace LocalDataManager

/-- data_manager.py `LocalDataManager.create_task` (lines 96-110): insert a
new row with `needs_sync=True`; the store assigns the fresh id `newId`.
Returns the new store and the created record. -/
def create_task (now : ℚ) (newId uid : Nat) (desc : String)
    (store : List LocalTask) : List LocalTask × LocalTask :=
  let task : LocalTask :=
    { id := newId
      user_id := uid
      cloud_task_id := none
      description := desc
      is_completed := false
      is_active := false
      created_at := some now
      completed_at := none
      updated_at := some now
      last_synced_at := none
      needs_sync := true }
  (store ++ [task], task)

/-- The bulk update of data_manager.py lines 117-120: deactivate every
active task of the user, stamping `updated_at` and `needs_sync`. -/
def deactivateOthers (now : ℚ) (uid : Nat) (store : List LocalTask) :
    List LocalTask :=
  store.map fun t =>
    if t.user_id = uid && t.is_active then
      { t with is_active := false, updated_at := some now, needs_sync := true }
    else t

/-- data_manager.py `LocalDataManager.start_task` (lines 112-136): first
deactivate all active tasks of the user, then activate the task with the
given id; if no such task exists, `ValueError("Task not found")` is raised
(before `commit`, so the session is rolled back and the store unchanged). -/
def start_task (now : ℚ) (uid tid : Nat) (store : List LocalTask) :
    Except String (List LocalTask × LocalTask) :=
  match updateFirst (fun t => t.id = tid && t.user_id = uid)
      (fun t => { t with is_active := true, updated_at := some now, needs_sync := true })
      (deactivateOthers now uid store) with
  | none => .error "Task not found"
  | some (store2, t) => .ok (store2, t)

/-- data_manager.py `LocalDataManager.complete_task` (lines 138-157). -/
def complete_task (now : ℚ) (uid tid : Nat) (store : List LocalTask) :
    Except String (List LocalTask × LocalTask) :=
  match updateFirst (fun t => t.id = tid && t.user_id = uid)
      (fun t => { t with
                  is_completed := true, is_active := false,
                  completed_at := some now, updated_at := some now,
                  needs_sync := true }) store with
  | none => .error "Task not found"
  | some (store2, t) => .ok (store2, t)

/-- data_manager.py `LocalDataManager.start_pomodoro` (lines 187-203). -/
def start_pomodoro (now : ℚ) (newId uid : Nat) (task_id : Option Nat)
    (session_type : String) (duration : Int) (store : List LocalPomodoro) :
    List LocalPomodoro × LocalPomodoro :=
  let pom : LocalPomodoro :=
    { id := newId
      user_id := uid
      task_id := task_id
      cloud_pomodoro_id := none
      session_type := session_type
      duration_minutes := duration
      completed := false
      started_at := some now
      completed_at := none
      updated_at := some now
      last_synced_at := none
      needs_sync := true }
  (store ++ [pom], pom)

/-- data_manager.py `LocalDataManager.complete_pomodoro` (lines 205-223). -/
def complete_pomodoro (now : ℚ) (uid pid : Nat) (store : List LocalPomodoro) :
    Except String (List LocalPomodoro × LocalPomodoro) :=
  match updateFirst (fun p => p.id = pid && p.user_id = uid)
      (fun p => { p with
                  completed := true, completed_at := some now,
                  updated_at := some now, needs_sync := true }) store with
  | none => .error "Pomodoro not found"
  | some (store2, p) => .ok (store2, p)

end LocalDataManager

/-! ### Config (config.py) and the Cloud / Hybrid data managers -/

/-- Operating mode of config.py (`"cloud"`, `"local"`, `"hybrid"`). -/
inductive Mode
  | cloud
  | localMode
  | hybrid
deriving Repr, DecidableEq

/-- config.py `Config.should_use_cloud` (lines 104-113): local mode never
uses the cloud, cloud mode always does, hybrid mode asks a live
connectivity probe (passed in as `connectivity`). -/
def shouldUseCloud (mode : Mode) (connectivity : Bool) : Bool :=
  match mode with
  | .localMode => false
  | .cloud => true
  | .hybrid => connectivity

/-- Python truthiness of the optional auth token
(`if not config.get_auth_token()` in sync_engine.py line 25):
`None` and the empty string are falsy. -/
def tokenTruthy : Option String → Bool
  | none => false
  | some s => decide (s ≠ "")

/-- Which backend an operation of the Hybrid manager touched. -/
inductive Backend
  | cloud
  | localStore
deriving Repr, DecidableEq, BEq

/-- Every CloudDataManager method (data_manager.py lines 248-279) is the
pure proxy `return await self.api.<op>(...)`: the api response is returned
as is and the ambient local store `st` is never mentioned. -/
def CloudDataManager.op (apiResult : α)
    (st : List LocalTask × List LocalPomodoro) :
    α × (List LocalTask × List LocalPomodoro) :=
  (apiResult, st)

/-- data_manager.py `HybridDataManager._try_cloud_fallback_local`
(lines 288-298): when `should_use_cloud` answers yes, attempt the cloud
operation; any exception from it is swallowed and the local operation is
run instead; otherwise go local directly. `cloudResult` is the outcome of
the (single possible) cloud attempt and `localResult` the outcome of the
(single possible) local attempt; the second component records which
backends were actually invoked, in order. -/
def tryCloudFallbackLocal (useCloud : Bool) (cloudResult : Except String α)
    (localResult : α) : α × List Backend :=
  if useCloud then
    match cloudResult with
    | .ok v => (v, [Backend.cloud])
    | .error _ => (localResult, [Backend.cloud, Backend.localStore])
  else
    (localResult, [Backend.localStore])

/-! ### Sync engine (sync_engine.py) -/

/-- Python truthiness of the optional remote identifier
(`if not local_task.cloud_task_id` in sync_engine.py line 57):
`None` and `0` are falsy, so a creation call is issued exactly when this
is false. -/
def cloudIdTruthy : Option Nat → Bool
  | none => false
  | some n => decide (n ≠ 0)

namespace SyncEngine

/-- The per-record error string of sync_engine.py line 68. -/
def taskSyncErrMsg (tid : Nat) (e : String) : String :=
  "Task sync error (ID " ++ toString tid ++ "): " ++ e

/-- The per-record error string of sync_engine.py line 105. -/
def pomSyncErrMsg (pid : Nat) (e : String) : String :=
  "Pomodoro sync error (ID " ++ toString pid ++ "): " ++ e

/-- Outcome of the task push loop: the store after commit, the number of
records marked synced, the accumulated per-record errors, and the number
of remote creation calls issued so far (the next index into the `api`
response oracle). -/
structure TaskSyncOut where
  store : List LocalTask
  synced : Nat
  errors : List String
  calls : Nat
deriving Repr, DecidableEq

/-- The loop of sync_engine.py `_sync_tasks_to_cloud` (lines 55-68):
records are selected by `user_id` and `needs_sync`; a record without a
truthy remote id gets a creation call (`api` is the oracle of remote
responses, indexed by creation-call count `calls`); on success the remote
id is stored and the record marked synced, on failure an error string is
recorded and the loop continues with the next record. Records not
selected are untouched. -/
def syncTasksGo (api : Nat → Except String Nat) (uid : Nat) (now : ℚ) :
    List LocalTask → Nat → TaskSyncOut
  | [], calls => ⟨[], 0, [], calls⟩
  | t :: ts, calls =>
    if t.user_id = uid && t.needs_sync then
      if cloudIdTruthy t.cloud_task_id then
        let t2 := { t with needs_sync := false, last_synced_at := some now }
        let r := syncTasksGo api uid now ts calls
        ⟨t2 :: r.store, r.synced + 1, r.errors, r.calls⟩
      else
        match api calls with
        | .ok cid =>
          let t2 := { t with cloud_task_id := some cid, needs_sync := false,
                             last_synced_at := some now }
          let r := syncTasksGo api uid now ts (calls + 1)
          ⟨t2 :: r.store, r.synced + 1, r.errors, r.calls⟩
        | .error e =>
          let r := syncTasksGo api uid now ts (calls + 1)
          ⟨t :: r.store, r.synced, taskSyncErrMsg t.id e :: r.errors, r.calls⟩
    else
      let r := syncTasksGo api uid now ts calls
      ⟨t :: r.store, r.synced, r.errors, r.calls⟩

/-- sync_engine.py `_sync_tasks_to_cloud` (lines 45-73): the outer
`try` turns a failure to query the local store (`taskStore = .error e`)
into a single batch-level error entry; otherwise the push loop runs. -/
def syncTasksToCloud (api : Nat → Except String Nat) (uid : Nat) (now : ℚ)
    (taskStore : Except String (List LocalTask)) : TaskSyncOut :=
  match taskStore with
  | .error e => ⟨[], 0, ["Tasks sync error: " ++ e], 0⟩
  | .ok ts => syncTasksGo api uid now ts 0

/-- Outcome of the pomodoro push loop, matching `TaskSyncOut`. -/
structure PomSyncOut where
  store : List LocalPomodoro
  synced : Nat
  errors : List String
  calls : Nat
deriving Repr, DecidableEq

/-- The loop of sync_engine.py `_sync_pomodoros_to_cloud` (lines 85-105):
like the task loop, but a completed pomodoro that was just created
remotely also gets a `complete_pomodoro` call (keyed by the remote id);
note the remote id is stored before that call, so if completion fails the
record keeps `needs_sync = True` but already carries the remote id. -/
def syncPomodorosGo (apiStart : Nat → Except String Nat)
    (apiComplete : Nat → Except String Unit) (uid : Nat) (now : ℚ) :
    List LocalPomodoro → Nat → PomSyncOut
  | [], calls => ⟨[], 0, [], calls⟩
  | p :: ps, calls =>
    if p.user_id = uid && p.needs_sync then
      if cloudIdTruthy p.cloud_pomodoro_id then
        let p2 := { p with needs_sync := false, last_synced_at := some now }
        let r := syncPomodorosGo apiStart apiComplete uid now ps calls
        ⟨p2 :: r.store, r.synced + 1, r.errors, r.calls⟩
      else
        match apiStart calls with
        | .ok cid =>
          if p.completed then
            match apiComplete cid with
            | .ok _ =>
              let p2 := { p with cloud_pomodoro_id := some cid,
                                 needs_sync := false, last_synced_at := some now }
              let r := syncPomodorosGo apiStart apiComplete uid now ps (calls + 1)
              ⟨p2 :: r.store, r.synced + 1, r.errors, r.calls⟩
            | .error e =>
              let p2 := { p with cloud_pomodoro_id := some cid }
              let r := syncPomodorosGo apiStart apiComplete uid now ps (calls + 1)
              ⟨p2 :: r.store, r.synced, pomSyncErrMsg p.id e :: r.errors, r.calls⟩
          else
            let p2 := { p with cloud_pomodoro_id := some cid,
                               needs_sync := false, last_synced_at := some now }
            let r := syncPomodorosGo apiStart apiComplete uid now ps (calls + 1)
            ⟨p2 :: r.store, r.synced + 1, r.errors, r.calls⟩
        | .error e =>
          let r := syncPomodorosGo apiStart apiComplete uid now ps (calls + 1)
          ⟨p :: r.store, r.synced, pomSyncErrMsg p.id e :: r.errors, r.calls⟩
    else
      let r := syncPomodorosGo apiStart apiComplete uid now ps calls
      ⟨p :: r.store, r.synced, r.errors, r.calls⟩

/-- sync_engine.py `_sync_pomodoros_to_cloud` (lines 75-110) with its
outer `try` handling a local-store failure as one batch-level error. -/
def syncPomodorosToCloud (apiStart : Nat → Except String Nat)
    (apiComplete : Nat → Except String Unit) (uid : Nat) (now : ℚ)
    (pomStore : Except String (List LocalPomodoro)) : PomSyncOut :=
  match pomStore with
  | .error e => ⟨[], 0, ["Pomodoros sync error: " ++ e], 0⟩
  | .ok ps => syncPomodorosGo apiStart apiComplete uid now ps 0

/-- The dictionary returned by sync_engine.py `sync_all`: either a
`{"error": msg}` dictionary, or the results dictionary with the two
counters and the accumulated error list. -/
inductive SyncAllResult
  | errOnly (msg : String)
  | report (tasks_synced : Nat) (pomodoros_synced : Nat) (errors : List String)
deriving Repr, DecidableEq

/-- sync_engine.py `SyncEngine.sync_all` (lines 17-43): three precondition
short-circuits (local-only mode, no connectivity, falsy auth token), then
the two push phases inside a catch-all `try`; `internalError` models an
unexpected exception raised inside that `try` (caught and returned as
`{"error": str(e)}`). -/
def sync_all (mode : Mode) (connectivity : Bool) (token : Option String)
    (internalError : Option String) (uid : Nat) (now : ℚ)
    (taskStore : Except String (List LocalTask))
    (pomStore : Except String (List LocalPomodoro))
    (apiCreateTask : Nat → Except String Nat)
    (apiStartPom : Nat → Except String Nat)
    (apiCompletePom : Nat → Except String Unit) : SyncAllResult :=
  if mode = Mode.localMode then .errOnly "Cannot sync in local-only mode"
  else if !connectivity then .errOnly "No internet connection"
  else if !(tokenTruthy token) then .errOnly "Not authenticated with cloud"
  else
    match internalError with
    | some e => .errOnly e
    | none =>
      let tr := syncTasksToCloud apiCreateTask uid now taskStore
      let pr := syncPomodorosToCloud apiStartPom apiCompletePom uid now pomStore
      .report tr.synced pr.synced (tr.errors ++ pr.errors)

end SyncEngine

/-! ### Timer daemon (daemon.py) -/

/-- Python `int()` applied to a float/rational: truncation toward zero. -/
def intTrunc (q : ℚ) : ℤ :=
  if 0 ≤ q then ⌊q⌋ else ⌈q⌉

/-- In-memory timer fields of `TimerDaemon` (daemon.py lines 21-28);
`start_time` is a wall-clock instant (`time.time()`). -/
structure TimerState where
  active : Bool
  paused : Bool
  start_time : Option ℚ
  duration_seconds : ℤ
  remaining_seconds : ℤ
  session_type : String
  task_description : String
  task_id : Option Nat
deriving Repr, DecidableEq

/-- The fresh / cleared field values (daemon.py lines 21-28 and 80-89). -/
def initialTimerState : TimerState :=
  { active := false
    paused := false
    start_time := none
    duration_seconds := 0
    remaining_seconds := 0
    session_type := ""
    task_description := ""
    task_id := none }

/-- Contents of the persisted `timer_state.json`: absent, malformed
(anything on which `json.load` or the subsequent field handling raises),
or a well-formed persisted state. -/
inductive StateFile
  | missing
  | corrupt
  | good (s : TimerState)
deriving Repr, DecidableEq

/-- Python truthiness of `self.start_time`
(`if self.active and self.start_time:` in daemon.py lines 69 and 228):
`None` and `0.0` are falsy. -/
def startTimeTruthy : Option ℚ → Bool
  | none => false
  | some t => decide (t ≠ 0)

namespace TimerDaemon

/-- The recomputation step of `_load_state` (daemon.py lines 68-75): for
an active timer with a truthy start time that is not paused, remaining
time is rederived from wall-clock elapsed time, floored at zero, and the
timer auto-completes (becomes inactive) when it reaches zero. (The
completion side effects, sound and notification, are external I/O.) -/
def loadStateUpdate (now : ℚ) (s : TimerState) : TimerState :=
  if s.active && startTimeTruthy s.start_time then
    if !s.paused then
      let elapsed := now - s.start_time.getD 0
      let r := max 0 (s.duration_seconds - intTrunc elapsed)
      if r ≤ 0 then { s with remaining_seconds := r, active := false }
      else { s with remaining_seconds := r }
    else s
  else s

/-- daemon.py `TimerDaemon._load_state` (lines 50-78): a missing state
file leaves the in-memory fields alone; a malformed one (any exception
while loading) resets every field and removes the file (`_clear_state`,
lines 80-92); a well-formed one replaces the in-memory fields and then
recomputes remaining time. The file itself is only written on the corrupt
path (it is unlinked). Returns the new in-memory state and file. -/
def load_state (now : ℚ) (f : StateFile) (s : TimerState) :
    TimerState × StateFile :=
  match f with
  | .missing => (s, .missing)
  | .corrupt => (initialTimerState, .missing)
  | .good st => (loadStateUpdate now st, .good st)

/-- daemon.py `TimerDaemon.pause_timer` (lines 200-218): reload state,
reject when no timer is active; otherwise toggle `paused`. On pausing,
freeze `remaining_seconds = max(0, duration - int(elapsed))`; on
resuming, reset `start_time` to now and `duration_seconds` to the frozen
remaining value; then save. Returns `none` on the (unreached in normal
operation) path where `start_time` is `None` and Python would raise a
`TypeError` computing `time.time() - None`. -/
def pause_timer (now : ℚ) (f : StateFile) (s : TimerState) :
    Option (TimerState × StateFile × Bool × String) :=
  let ls := load_state now f s
  let s1 := ls.1
  if !s1.active then some (s1, ls.2, false, "No timer is running")
  else
    let s2 := { s1 with paused := !s1.paused }
    if s2.paused then
      match s2.start_time with
      | none => none
      | some t0 =>
        let elapsed := now - t0
        let s3 := { s2 with
                    remaining_seconds := max 0 (s2.duration_seconds - intTrunc elapsed) }
        some (s3, StateFile.good s3, true, "Timer paused")
    else
      let s3 := { s2 with start_time := some now,
                          duration_seconds := s2.remaining_seconds }
      some (s3, StateFile.good s3, true, "Timer resumed")

/-- The status dictionary of daemon.py `get_status` (lines 220-242):
either `{"active": False, ...}` or the full running-timer report.
(`daemon_running`, `remaining_minutes` and `remaining_display` are
derived display fields, omitted.) -/
inductive TimerStatus
  | idle
  | running (paused : Bool) (session_type : String)
      (task_description : String) (task_id : Option Nat)
      (remaining_seconds : ℤ)
deriving Repr, DecidableEq

/-- daemon.py `TimerDaemon.get_status` (lines 220-242): reload state;
an inactive timer reports idle; an active unpaused timer with truthy
start time has its remaining time recomputed from wall-clock elapsed,
floored at zero, before being reported. -/
def get_status (now : ℚ) (f : StateFile) (s : TimerState) :
    TimerStatus × TimerState × StateFile :=
  let ls := load_state now f s
  let s1 := ls.1
  if !s1.active then (.idle, s1, ls.2)
  else
    let s2 :=
      if !s1.paused && startTimeTruthy s1.start_time then
        { s1 with
          remaining_seconds :=
            max 0 (s1.duration_seconds - intTrunc (now - s1.start_time.getD 0)) }
      else s1
    (.running s2.paused s2.session_type s2.task_description s2.task_id
       s2.remaining_seconds, s2, ls.2)

/-- The state-setting core of daemon.py `TimerDaemon.start_timer`
(lines 170-187), after the daemon-process bookkeeping (external I/O):
reload state, reject when a timer is already active, otherwise install a
fresh countdown of `duration_minutes * 60` seconds starting now and save. -/
def start_timer (now : ℚ) (duration_minutes : ℤ) (session_type : String)
    (task_description : String) (task_id : Option Nat) (f : StateFile)
    (s : TimerState) : TimerState × StateFile × Bool × String :=
  let ls := load_state now f s
  let s1 := ls.1
  if s1.active then (s1, ls.2, false, "Timer is already running")
  else
    let s2 : TimerState :=
      { active := true
        paused := false
        start_time := some now
        duration_seconds := duration_minutes * 60
        remaining_seconds := duration_minutes * 60
        session_type := session_type
        task_description := task_description
        task_id := task_id }
    (s2, StateFile.good s2, true,
      "Started " ++ session_type ++ " timer for " ++ toString duration_minutes
        ++ " minutes")

end TimerDaemon

/-- A sequence of `start_task` calls against the local store; a call that
raises `Task not found` leaves the store unchanged (the exception is
raised before `commit`, so the session closes without committing). -/
def startTaskSeq (now : ℚ) (uid : Nat) (calls : List Nat)
    (store : List LocalTask) : List LocalTask :=
  calls.foldl
    (fun st tid =>
      match LocalDataManager.start_task now uid tid st with
      | .ok (st2, _) => st2
      | .error _ => st)
    store

/-! ### Theorems -/

open LocalDataManager SyncEngine TimerDaemon

section UpdateFirstLemmas

variable {α : Type} (p : α → Bool) (f : α → α)

theorem updateFirst_length (xs : List α) :
    ∀ ys y, updateFirst p f xs = some (ys, y) → ys.length = xs.length := by
  induction xs with
  | nil => intro ys y h; simp [updateFirst] at h
  | cons x xs ih =>
    intro ys y h
    simp only [updateFirst] at h
    split at h
    · cases h
      simp
    · cases hrec : updateFirst p f xs with
      | none => rw [hrec] at h; cases h
      | some q =>
        obtain ⟨ys', y'⟩ := q
        rw [hrec] at h
        cases h
        simp [ih ys' y hrec]

theorem updateFirst_found (xs : List α) :
    ∀ ys y, updateFirst p f xs = some (ys, y) → ∃ x, p x = true ∧ y = f x := by
  induction xs with
  | nil => intro ys y h; simp [updateFirst] at h
  | cons x xs ih =>
    intro ys y h
    simp only [updateFirst] at h
    split at h
    · cases h
      exact ⟨x, by assumption, rfl⟩
    · cases hrec : updateFirst p f xs with
      | none => rw [hrec] at h; cases h
      | some q =>
        obtain ⟨ys', y'⟩ := q
        rw [hrec] at h
        cases h
        exact ih ys' y hrec

theorem updateFirst_get (xs : List α) :
    ∀ ys y, updateFirst p f xs = some (ys, y) →
      ∀ i (hi : i < xs.length) (hi' : i < ys.length),
        ys.get ⟨i, hi'⟩ = xs.get ⟨i, hi⟩ ∨ ys.get ⟨i, hi'⟩ = y := by
  induction xs with
  | nil => intro ys y h; simp [updateFirst] at h
  | cons x xs ih =>
    intro ys y h
    simp only [updateFirst] at h
    split at h
    · cases h
      intro i hi hi'
      cases i with
      | zero => right; rfl
      | succ j => left; rfl
    · cases hrec : updateFirst p f xs with
      | none => rw [hrec] at h; cases h
      | some q =>
        obtain ⟨ys', y'⟩ := q
        rw [hrec] at h
        cases h
        intro i hi hi'
        cases i with
        | zero => left; rfl
        | succ j =>
          exact ih ys' y hrec j (Nat.lt_of_succ_lt_succ hi)
            (Nat.lt_of_succ_lt_succ hi')

theorem updateFirst_filter_unique (q : α → Bool) (xs : List α)
    (hq : ∀ a ∈ xs, q a = false) :
    ∀ ys y, updateFirst p f xs = some (ys, y) → q y = true →
      ys.filter q = [y] := by
  induction xs with
  | nil => intro ys y h; simp [updateFirst] at h
  | cons x xs ih =>
    intro ys y h hy
    simp only [updateFirst] at h
    split at h
    · cases h
      rw [List.filter_cons_of_pos hy]
      have : xs.filter q = [] := by
        rw [List.filter_eq_nil_iff]
        intro a ha
        simp [hq a (List.mem_cons_of_mem x ha)]
      rw [this]
    · cases hrec : updateFirst p f xs with
      | none => rw [hrec] at h; cases h
      | some qq =>
        obtain ⟨ys', y'⟩ := qq
        rw [hrec] at h
        cases h
        rw [List.filter_cons_of_neg]
        · exact ih (fun a ha => hq a (List.mem_cons_of_mem x ha)) ys' y hrec hy
        · simp [hq x (List.mem_cons_self x xs)]

end UpdateFirstLemmas

/-- A record changed by `updateFirst` is the image of `f`: any invariant
of `f`-outputs holds for the returned record and for every position of
the output list that differs from the input list. -/
theorem updateFirst_changed {α : Type} (p : α → Bool) (f : α → α)
    (P : α → Prop) (hf : ∀ x, P (f x)) (xs ys : List α) (y : α)
    (h : updateFirst p f xs = some (ys, y)) :
    P y ∧ ∀ i (hi : i < xs.length) (hi' : i < ys.length),
      ys.get ⟨i, hi'⟩ ≠ xs.get ⟨i, hi⟩ → P (ys.get ⟨i, hi'⟩) := by
  obtain ⟨x, hpx, hyx⟩ := updateFirst_found p f xs ys y h
  subst hyx
  refine ⟨hf x, ?_⟩
  intro i hi hi' hne
  rcases updateFirst_get p f xs ys (f x) h i hi hi' with heq | heq
  · exact absurd heq hne
  · rw [heq]
    exact hf x

/-- Pointwise view of the bulk deactivation: each position is either
unchanged or was deactivated with `needs_sync` stamped. -/
theorem deactivateOthers_get (now : ℚ) (uid : Nat) (store : List LocalTask)
    (i : Nat) (hi : i < store.length)
    (hid : i < (LocalDataManager.deactivateOthers now uid store).length) :
    (LocalDataManager.deactivateOthers now uid store).get ⟨i, hid⟩
        = store.get ⟨i, hi⟩ ∨
    ((LocalDataManager.deactivateOthers now uid store).get ⟨i, hid⟩).needs_sync
        = true := by
  have hmap : (LocalDataManager.deactivateOthers now uid store).get ⟨i, hid⟩
      = (fun t => if decide (t.user_id = uid) && t.is_active then
            { t with is_active := false, updated_at := some now,
                     needs_sync := true }
          else t) (store.get ⟨i, hi⟩) := by
    simp [LocalDataManager.deactivateOthers]
  rw [hmap]
  beta_reduce
  by_cases hc : (decide ((store.get ⟨i, hi⟩).user_id = uid)
      && (store.get ⟨i, hi⟩).is_active) = true
  · rw [if_pos hc]
    right
    rfl
  · rw [if_neg hc]
    left
    rfl

/-- After the bulk deactivation step of `start_task`, no task of the user
is active. -/
theorem deactivateOthers_not_active (now : ℚ) (uid : Nat)
    (store : List LocalTask) :
    ∀ t ∈ LocalDataManager.deactivateOthers now uid store,
      (decide (t.user_id = uid) && t.is_active) = false := by
  intro t ht
  simp only [LocalDataManager.deactivateOthers, List.mem_map] at ht
  obtain ⟨u, hu, rfl⟩ := ht
  by_cases hc : (decide (u.user_id = uid) && u.is_active) = true
  · rw [if_pos hc]
    simp
  · rw [if_neg hc]
    simpa using hc

/-- A successful `start_task` leaves exactly one active task of the user
in the store: the requested one. -/
theorem start_task_ok_active (now : ℚ) (uid tid : Nat)
    (store store2 : List LocalTask) (t : LocalTask)
    (h : LocalDataManager.start_task now uid tid store = Except.ok (store2, t)) :
    store2.filter (fun u => u.user_id = uid && u.is_active) = [t] ∧
    t.id = tid ∧ t.user_id = uid ∧ t.is_active = true := by
  unfold LocalDataManager.start_task at h
  cases hup : updateFirst (fun u => u.id = tid && u.user_id = uid)
      (fun u => { u with is_active := true, updated_at := some now,
                         needs_sync := true })
      (LocalDataManager.deactivateOthers now uid store) with
  | none => rw [hup] at h; cases h
  | some q =>
    obtain ⟨ys, y⟩ := q
    rw [hup] at h
    cases h
    obtain ⟨x, hpx, hyx⟩ := updateFirst_found _ _ _ _ _ hup
    have hx : x.id = tid ∧ x.user_id = uid := by simpa using hpx
    subst hyx
    refine ⟨?_, by simp [hx.1], by simp [hx.2], rfl⟩
    exact updateFirst_filter_unique _ _ _ _
      (deactivateOthers_not_active now uid store) _ _ hup (by simp [hx.2])

/-- A sequence of `start_task` calls preserves the at-most-one-active
invariant for the user. -/
theorem startTaskSeq_at_most_one (now : ℚ) (uid : Nat) (calls : List Nat) :
    ∀ store : List LocalTask,
      (store.filter (fun u => u.user_id = uid && u.is_active)).length ≤ 1 →
      ((startTaskSeq now uid calls store).filter
          (fun u => u.user_id = uid && u.is_active)).length ≤ 1 := by
  induction calls with
  | nil => intro store h; simpa [startTaskSeq] using h
  | cons c cs ih =>
    intro store h
    have hstep : startTaskSeq now uid (c :: cs) store
        = startTaskSeq now uid cs
            (match LocalDataManager.start_task now uid c store with
             | .ok (st2, _) => st2
             | .error _ => store) := by
      simp [startTaskSeq]
    rw [hstep]
    cases hst : LocalDataManager.start_task now uid c store with
    | error e => exact ih store h
    | ok pr =>
      obtain ⟨st2, t⟩ := pr
      apply ih st2
      rw [(start_task_ok_active now uid c store st2 t hst).1]
      simp

/-- Frame property of a successful `start_task`: the returned task and
every store position it changed (the activated task and the implicitly
deactivated ones) carry `needs_sync = true`. -/
theorem start_task_frame (now : ℚ) (uid tid : Nat)
    (store store2 : List LocalTask) (t : LocalTask)
    (h : LocalDataManager.start_task now uid tid store = Except.ok (store2, t)) :
    t.needs_sync = true ∧ store2.length = store.length ∧
    ∀ i (hi : i < store.length) (hi2 : i < store2.length),
      store2.get ⟨i, hi2⟩ ≠ store.get ⟨i, hi⟩ →
      (store2.get ⟨i, hi2⟩).needs_sync = true := by
  unfold LocalDataManager.start_task at h
  cases hup : updateFirst (fun u => u.id = tid && u.user_id = uid)
      (fun u => { u with is_active := true, updated_at := some now,
                         needs_sync := true })
      (LocalDataManager.deactivateOthers now uid store) with
  | none => rw [hup] at h; cases h
  | some q =>
    obtain ⟨ys, y⟩ := q
    rw [hup] at h
    cases h
    have hlend : (LocalDataManager.deactivateOthers now uid store).length
        = store.length := by
      simp [LocalDataManager.deactivateOthers]
    have hchanged := updateFirst_changed _ _
      (fun (r : LocalTask) => r.needs_sync = true) (fun x => rfl) _ _ _ hup
    refine ⟨hchanged.1, by rw [updateFirst_length _ _ _ _ _ hup, hlend], ?_⟩
    intro i hi hi2 hne
    have hid : i < (LocalDataManager.deactivateOthers now uid store).length := by
      rw [hlend]; exact hi
    rcases updateFirst_get _ _ _ _ _ hup i hid hi2 with heq | heq
    · rcases deactivateOthers_get now uid store i hi hid with hd | hd
      · exact absurd (heq.trans hd) hne
      · rw [heq]; exact hd
    · rw [heq]; exact hchanged.1

/-- Frame property of a successful `complete_task`. -/
theorem complete_task_frame (now : ℚ) (uid tid : Nat)
    (store store2 : List LocalTask) (t : LocalTask)
    (h : LocalDataManager.complete_task now uid tid store
        = Except.ok (store2, t)) :
    t.needs_sync = true ∧ store2.length = store.length ∧
    ∀ i (hi : i < store.length) (hi2 : i < store2.length),
      store2.get ⟨i, hi2⟩ ≠ store.get ⟨i, hi⟩ →
      (store2.get ⟨i, hi2⟩).needs_sync = true := by
  unfold LocalDataManager.complete_task at h
  cases hup : updateFirst (fun u => u.id = tid && u.user_id = uid)
      (fun u => { u with
                  is_completed := true, is_active := false,
                  completed_at := some now, updated_at := some now,
                  needs_sync := true }) store with
  | none => rw [hup] at h; cases h
  | some q =>
    obtain ⟨ys, y⟩ := q
    rw [hup] at h
    cases h
    have hchanged := updateFirst_changed _ _
      (fun (r : LocalTask) => r.needs_sync = true) (fun x => rfl) _ _ _ hup
    exact ⟨hchanged.1, updateFirst_length _ _ _ _ _ hup, hchanged.2⟩

/-- Frame property of a successful `complete_pomodoro`. -/
theorem complete_pomodoro_frame (now : ℚ) (uid pid : Nat)
    (store store2 : List LocalPomodoro) (p : LocalPomodoro)
    (h : LocalDataManager.complete_pomodoro now uid pid store
        = Except.ok (store2, p)) :
    p.needs_sync = true ∧ store2.length = store.length ∧
    ∀ i (hi : i < store.length) (hi2 : i < store2.length),
      store2.get ⟨i, hi2⟩ ≠ store.get ⟨i, hi⟩ →
      (store2.get ⟨i, hi2⟩).needs_sync = true := by
  unfold LocalDataManager.complete_pomodoro at h
  cases hup : updateFirst (fun u => u.id = pid && u.user_id = uid)
      (fun u => { u with
                  completed := true, completed_at := some now,
                  updated_at := some now, needs_sync := true }) store with
  | none => rw [hup] at h; cases h
  | some q =>
    obtain ⟨ys, y⟩ := q
    rw [hup] at h
    cases h
    have hchanged := updateFirst_changed _ _
      (fun (r : LocalPomodoro) => r.needs_sync = true) (fun x => rfl) _ _ _ hup
    exact ⟨hchanged.1, updateFirst_length _ _ _ _ _ hup, hchanged.2⟩

/-- C9: every create/mutate operation of the Local data manager sets
`needs_sync = true` on the record(s) it touches — `create_task` and
`start_pomodoro` on the inserted record (leaving the rest of the store
as is), `start_task` on the activated task and on every task it
implicitly deactivated, `complete_task` and `complete_pomodoro` on the
completed record — while every Cloud data manager operation is a pure
api proxy whose result ignores the local store and leaves it untouched. -/
theorem local_mutations_set_needs_sync (now : ℚ) (uid : Nat) :
    (∀ newId desc store,
        ((LocalDataManager.create_task now newId uid desc store).2).needs_sync
            = true ∧
        (LocalDataManager.create_task now newId uid desc store).1
            = store ++ [(LocalDataManager.create_task now newId uid desc store).2]) ∧
    (∀ tid store store2 t,
        LocalDataManager.start_task now uid tid store = Except.ok (store2, t) →
        t.needs_sync = true ∧ store2.length = store.length ∧
        ∀ i (hi : i < store.length) (hi2 : i < store2.length),
          store2.get ⟨i, hi2⟩ ≠ store.get ⟨i, hi⟩ →
          (store2.get ⟨i, hi2⟩).needs_sync = true) ∧
    (∀ tid store store2 t,
        LocalDataManager.complete_task now uid tid store
            = Except.ok (store2, t) →
        t.needs_sync = true ∧ store2.length = store.length ∧
        ∀ i (hi : i < store.length) (hi2 : i < store2.length),
          store2.get ⟨i, hi2⟩ ≠ store.get ⟨i, hi⟩ →
          (store2.get ⟨i, hi2⟩).needs_sync = true) ∧
    (∀ newId task_id session_type duration store,
        ((LocalDataManager.start_pomodoro now newId uid task_id session_type
            duration store).2).needs_sync = true ∧
        (LocalDataManager.start_pomodoro now newId uid task_id session_type
            duration store).1
          = store ++ [(LocalDataManager.start_pomodoro now newId uid task_id
              session_type duration store).2]) ∧
    (∀ pid store store2 p,
        LocalDataManager.complete_pomodoro now uid pid store
            = Except.ok (store2, p) →
        p.needs_sync = true ∧ store2.length = store.length ∧
        ∀ i (hi : i < store.length) (hi2 : i < store2.length),
          store2.get ⟨i, hi2⟩ ≠ store.get ⟨i, hi⟩ →
          (store2.get ⟨i, hi2⟩).needs_sync = true) ∧
    (∀ (α : Type) (apiResult : α) st,
        CloudDataManager.op apiResult st = (apiResult, st)) :=
  ⟨fun _ _ _ => ⟨rfl, rfl⟩,
   fun tid store store2 t h => start_task_frame now uid tid store store2 t h,
   fun tid store store2 t h => complete_task_frame now uid tid store store2 t h,
   fun _ _ _ _ _ => ⟨rfl, rfl⟩,
   fun pid store store2 p h => complete_pomodoro_frame now uid pid store store2 p h,
   fun _ _ _ => rfl⟩

/-- C9 witness: concrete instances — `create_task` output, a successful
`start_task` (hypotheses discharged by `rfl`/`decide`) whose changed
position 0 (the implicitly deactivated task) carries `needs_sync`, and
the Cloud proxy on a concrete store. -/
theorem local_mutations_set_needs_sync_witness :
    ((LocalDataManager.create_task 0 2 1 "b"
        [⟨1, 1, none, "a", false, false, some 0, none, some 0, none, false⟩]).2).needs_sync
        = true ∧
    ((⟨2, 1, none, "b", false, true, some 0, none, some 5, none, true⟩ :
        LocalTask)).needs_sync = true ∧
    (([⟨1, 1, none, "a", false, false, some 0, none, some 5, none, true⟩,
       ⟨2, 1, none, "b", false, true, some 0, none, some 5, none, true⟩] :
        List LocalTask).get ⟨0, by decide⟩).needs_sync = true ∧
    CloudDataManager.op (42 : Nat) ([], []) = (42, ([], [])) := by
  refine ⟨?_, ?_, ?_, ?_⟩
  · exact ((local_mutations_set_needs_sync 0 1).1 2 "b"
      [⟨1, 1, none, "a", false, false, some 0, none, some 0, none, false⟩]).1
  · exact ((local_mutations_set_needs_sync 5 1).2.1 2
      [⟨1, 1, none, "a", false, true, some 0, none, some 0, none, false⟩,
       ⟨2, 1, none, "b", false, false, some 0, none, some 0, none, false⟩]
      [⟨1, 1, none, "a", false, false, some 0, none, some 5, none, true⟩,
       ⟨2, 1, none, "b", false, true, some 0, none, some 5, none, true⟩]
      ⟨2, 1, none, "b", false, true, some 0, none, some 5, none, true⟩ rfl).1
  · exact ((local_mutations_set_needs_sync 5 1).2.1 2
      [⟨1, 1, none, "a", false, true, some 0, none, some 0, none, false⟩,
       ⟨2, 1, none, "b", false, false, some 0, none, some 0, none, false⟩]
      [⟨1, 1, none, "a", false, false, some 0, none, some 5, none, true⟩,
       ⟨2, 1, none, "b", false, true, some 0, none, some 5, none, true⟩]
      ⟨2, 1, none, "b", false, true, some 0, none, some 5, none, true⟩
      rfl).2.2 0 (by decide) (by decide) (by decide)
  · exact (local_mutations_set_needs_sync 0 1).2.2.2.2.2 Nat 42 ([], [])

/-- C1: for every sequence of `start_task` calls on the Local data
manager, after each call at most one task of the user has
`is_active = true` (a failing call raises before commit and leaves the
store unchanged, which the fold in `startTaskSeq` reflects), and a
successful `start_task` leaves the requested task as the single active
task of that user: the other tasks were deactivated first. -/
theorem start_task_single_active_invariant (now : ℚ) (uid : Nat) :
    (∀ tid store store2 t,
        LocalDataManager.start_task now uid tid store = Except.ok (store2, t) →
        store2.filter (fun u => u.user_id = uid && u.is_active) = [t] ∧
        t.id = tid ∧ t.user_id = uid ∧ t.is_active = true) ∧
    (∀ calls store,
        (store.filter (fun u => u.user_id = uid && u.is_active)).length ≤ 1 →
        ((startTaskSeq now uid calls store).filter
            (fun u => u.user_id = uid && u.is_active)).length ≤ 1) :=
  ⟨fun tid store store2 t h => start_task_ok_active now uid tid store store2 t h,
   fun calls store h => startTaskSeq_at_most_one now uid calls store h⟩

/-- C1 witness: concrete run of `start_task` (hypothesis discharged by
`rfl`) and of a three-call sequence on a one-task store. -/
theorem start_task_single_active_invariant_witness :
    (([(⟨1, 1, none, "a", false, true, some 0, none, some 0, none, true⟩ :
          LocalTask)].filter (fun u => u.user_id = 1 && u.is_active))
        = [⟨1, 1, none, "a", false, true, some 0, none, some 0, none, true⟩] ∧
      (1 : Nat) = 1 ∧ (1 : Nat) = 1 ∧ true = true) ∧
    ((startTaskSeq 0 1 [1, 1, 2]
        [⟨1, 1, none, "a", false, false, some 0, none, some 0, none, true⟩]).filter
          (fun u => u.user_id = 1 && u.is_active)).length ≤ 1 :=
  ⟨(start_task_single_active_invariant 0 1).1 1
      [⟨1, 1, none, "a", false, false, some 0, none, some 0, none, true⟩]
      [⟨1, 1, none, "a", false, true, some 0, none, some 0, none, true⟩]
      ⟨1, 1, none, "a", false, true, some 0, none, some 0, none, true⟩ rfl,
   (start_task_single_active_invariant 0 1).2 [1, 1, 2]
      [⟨1, 1, none, "a", false, false, some 0, none, some 0, none, true⟩]
      (by decide)⟩

/-- The task push loop is the identity (no api calls, nothing synced, no
errors) on a store with no pending record of the user. -/
theorem syncTasksGo_no_pending (api : Nat → Except String Nat) (uid : Nat)
    (now : ℚ) (ts : List LocalTask) (c : Nat)
    (h : ∀ t ∈ ts, ¬(t.user_id = uid ∧ t.needs_sync = true)) :
    syncTasksGo api uid now ts c = ⟨ts, 0, [], c⟩ := by
  induction ts with
  | nil => rfl
  | cons t ts ih =>
    have hb : (decide (t.user_id = uid) && t.needs_sync) = false := by
      simpa [Bool.and_eq_true] using h t (List.mem_cons_self t ts)
    simp only [syncTasksGo, hb, Bool.false_eq_true, if_false]
    rw [ih (fun u hu => h u (List.mem_cons_of_mem t hu))]

/-- First half of sync idempotence: when every pending task of the user
already carries a truthy remote id, the push loop issues no creation
call and afterwards no task of the user is pending. -/
theorem syncTasksGo_skip_create (api : Nat → Except String Nat) (uid : Nat)
    (now : ℚ) (ts : List LocalTask) (c : Nat)
    (h : ∀ t ∈ ts, t.user_id = uid → t.needs_sync = true →
        cloudIdTruthy t.cloud_task_id = true) :
    (syncTasksGo api uid now ts c).calls = c ∧
    ∀ t ∈ (syncTasksGo api uid now ts c).store,
      ¬(t.user_id = uid ∧ t.needs_sync = true) := by
  induction ts generalizing c with
  | nil => exact ⟨rfl, by simp [syncTasksGo]⟩
  | cons t ts ih =>
    have ihc := ih c (fun u hu => h u (List.mem_cons_of_mem t hu))
    by_cases hsel : (decide (t.user_id = uid) && t.needs_sync) = true
    · have hid : cloudIdTruthy t.cloud_task_id = true := by
        have := hsel
        rw [Bool.and_eq_true, decide_eq_true_eq] at this
        exact h t (List.mem_cons_self t ts) this.1 this.2
      simp only [syncTasksGo, hsel, if_true, hid]
      refine ⟨ihc.1, ?_⟩
      intro u hu
      rcases List.mem_cons.mp hu with hu | hu
      · subst hu
        simp
      · exact ihc.2 u hu
    · simp only [syncTasksGo, hsel, if_false]
      refine ⟨ihc.1, ?_⟩
      intro u hu
      rcases List.mem_cons.mp hu with hu | hu
      · subst hu
        simpa [Bool.and_eq_true] using hsel
      · exact ihc.2 u hu

/-- C4: sync is idempotent for records that already carry a remote id:
if every pending task of the user has a (truthy, i.e. nonzero — the code
tests Python truthiness of the id) remote identifier, a first run of the
task push loop issues zero remote creation calls and leaves no pending
task of the user (it only clears `needs_sync` and stamps
`last_synced_at`), and a second run over the resulting store is a no-op:
it selects no record, syncs nothing, reports no error, and makes no api
call. -/
theorem sync_twice_no_recreate (api api2 : Nat → Except String Nat)
    (uid : Nat) (now now2 : ℚ) (c0 c2 : Nat) (ts : List LocalTask)
    (h : ∀ t ∈ ts, t.user_id = uid → t.needs_sync = true →
        cloudIdTruthy t.cloud_task_id = true) :
    (syncTasksGo api uid now ts c0).calls = c0 ∧
    syncTasksGo api2 uid now2 (syncTasksGo api uid now ts c0).store c2
      = ⟨(syncTasksGo api uid now ts c0).store, 0, [], c2⟩ :=
  ⟨(syncTasksGo_skip_create api uid now ts c0 h).1,
   syncTasksGo_no_pending api2 uid now2 _ c2
     (syncTasksGo_skip_create api uid now ts c0 h).2⟩

/-- C4 witness: one pending task with remote id 7; both runs at concrete
inputs. -/
theorem sync_twice_no_recreate_witness :
    (syncTasksGo (fun _ => Except.ok 99) 1 3
        [⟨1, 1, some 7, "a", false, false, some 0, none, some 0, none, true⟩]
        0).calls = 0 ∧
    syncTasksGo (fun _ => Except.ok 100) 1 9
        (syncTasksGo (fun _ => Except.ok 99) 1 3
          [⟨1, 1, some 7, "a", false, false, some 0, none, some 0, none, true⟩]
          0).store 0
      = ⟨(syncTasksGo (fun _ => Except.ok 99) 1 3
          [⟨1, 1, some 7, "a", false, false, some 0, none, some 0, none, true⟩]
          0).store, 0, [], 0⟩ :=
  sync_twice_no_recreate (fun _ => Except.ok 99) (fun _ => Except.ok 100) 1 3 9
    0 0 [⟨1, 1, some 7, "a", false, false, some 0, none, some 0, none, true⟩]
    (by decide)

/-- The push loop on all-pending creation records when every creation
call succeeds: everything is synced, no errors, one api call per record,
every stored record cleared and stamped. -/
theorem syncTasksGo_all_ok (api : Nat → Except String Nat) (uid : Nat)
    (now : ℚ) (ts : List LocalTask) :
    ∀ c0,
      (∀ t ∈ ts, t.user_id = uid ∧ t.needs_sync = true ∧
          t.cloud_task_id = none) →
      (∀ i, i < ts.length → ∃ cid, api (c0 + i) = Except.ok cid) →
      (syncTasksGo api uid now ts c0).synced = ts.length ∧
      (syncTasksGo api uid now ts c0).errors = [] ∧
      (syncTasksGo api uid now ts c0).calls = c0 + ts.length ∧
      (syncTasksGo api uid now ts c0).store.length = ts.length ∧
      ∀ i (hi2 : i < (syncTasksGo api uid now ts c0).store.length),
        ((syncTasksGo api uid now ts c0).store.get ⟨i, hi2⟩).needs_sync
            = false ∧
        ((syncTasksGo api uid now ts c0).store.get ⟨i, hi2⟩).last_synced_at
            = some now := by
  induction ts with
  | nil =>
    intro c0 _ _
    refine ⟨rfl, rfl, rfl, rfl, ?_⟩
    intro i hi2
    simp [syncTasksGo] at hi2
  | cons t ts ih =>
    intro c0 hall hok
    have ht := hall t (List.mem_cons_self t ts)
    have hsel : (decide (t.user_id = uid) && t.needs_sync) = true := by
      simp [ht.1, ht.2.1]
    have hid : cloudIdTruthy t.cloud_task_id = false := by
      rw [ht.2.2]
      rfl
    obtain ⟨cid, hcid⟩ := hok 0 (Nat.succ_pos _)
    rw [Nat.add_zero] at hcid
    have ihr := ih (c0 + 1) (fun u hu => hall u (List.mem_cons_of_mem t hu))
      (fun i hi => by
        obtain ⟨cid2, h2⟩ := hok (i + 1) (Nat.succ_lt_succ hi)
        refine ⟨cid2, ?_⟩
        have harg : c0 + 1 + i = c0 + (i + 1) := by omega
        rw [harg]
        exact h2)
    have hred : syncTasksGo api uid now (t :: ts) c0
        = ⟨{ t with
             cloud_task_id := some cid, needs_sync := false,
             last_synced_at := some now }
            :: (syncTasksGo api uid now ts (c0 + 1)).store,
           (syncTasksGo api uid now ts (c0 + 1)).synced + 1,
           (syncTasksGo api uid now ts (c0 + 1)).errors,
           (syncTasksGo api uid now ts (c0 + 1)).calls⟩ := by
      simp only [syncTasksGo, hsel, if_true, hid, Bool.false_eq_true, if_false,
        hcid]
    rw [hred]
    refine ⟨by simp [ihr.1], by simpa using ihr.2.1, ?_, by simp [ihr.2.2.2.1],
      ?_⟩
    · have := ihr.2.2.1
      simp only [List.length_cons]
      omega
    · intro i hi2
      cases i with
      | zero => exact ⟨rfl, rfl⟩
      | succ k =>
        exact ihr.2.2.2.2 k (Nat.lt_of_succ_lt_succ (by simpa using hi2))

/-- The push loop on all-pending creation records when exactly the j-th
creation call fails: counts, the single error entry, and the pointwise
fate of every record. -/
theorem syncTasksGo_one_failure (api : Nat → Except String Nat) (uid : Nat)
    (now : ℚ) (ts : List LocalTask) :
    ∀ c0 j (hj : j < ts.length) (e : String),
      (∀ t ∈ ts, t.user_id = uid ∧ t.needs_sync = true ∧
          t.cloud_task_id = none) →
      api (c0 + j) = Except.error e →
      (∀ i, i < ts.length → i ≠ j → ∃ cid, api (c0 + i) = Except.ok cid) →
      (syncTasksGo api uid now ts c0).synced = ts.length - 1 ∧
      (syncTasksGo api uid now ts c0).errors
          = [taskSyncErrMsg (ts.get ⟨j, hj⟩).id e] ∧
      (syncTasksGo api uid now ts c0).calls = c0 + ts.length ∧
      (syncTasksGo api uid now ts c0).store.length = ts.length ∧
      ∀ i (hi : i < ts.length)
          (hi2 : i < (syncTasksGo api uid now ts c0).store.length),
        (i = j → (syncTasksGo api uid now ts c0).store.get ⟨i, hi2⟩
            = ts.get ⟨i, hi⟩) ∧
        (i ≠ j →
          ((syncTasksGo api uid now ts c0).store.get ⟨i, hi2⟩).needs_sync
              = false ∧
          ((syncTasksGo api uid now ts c0).store.get ⟨i, hi2⟩).last_synced_at
              = some now) := by
  induction ts with
  | nil =>
    intro c0 j hj
    exact absurd hj (Nat.not_lt_zero j)
  | cons t ts ih =>
    intro c0 j hj e hall herr hok
    have ht := hall t (List.mem_cons_self t ts)
    have hsel : (decide (t.user_id = uid) && t.needs_sync) = true := by
      simp [ht.1, ht.2.1]
    have hid : cloudIdTruthy t.cloud_task_id = false := by
      rw [ht.2.2]
      rfl
    cases j with
    | zero =>
      rw [Nat.add_zero] at herr
      have hred : syncTasksGo api uid now (t :: ts) c0
          = ⟨t :: (syncTasksGo api uid now ts (c0 + 1)).store,
             (syncTasksGo api uid now ts (c0 + 1)).synced,
             taskSyncErrMsg t.id e
               :: (syncTasksGo api uid now ts (c0 + 1)).errors,
             (syncTasksGo api uid now ts (c0 + 1)).calls⟩ := by
        simp only [syncTasksGo, hsel, if_true, hid, Bool.false_eq_true,
          if_false, herr]
      have hallok := syncTasksGo_all_ok api uid now ts (c0 + 1)
        (fun u hu => hall u (List.mem_cons_of_mem t hu))
        (fun i hi => by
          obtain ⟨cid2, h2⟩ := hok (i + 1) (Nat.succ_lt_succ hi)
            (Nat.succ_ne_zero i)
          refine ⟨cid2, ?_⟩
          have harg : c0 + 1 + i = c0 + (i + 1) := by omega
          rw [harg]
          exact h2)
      rw [hred]
      refine ⟨by simp [hallok.1], by simpa using hallok.2.1, ?_,
        by simp [hallok.2.2.2.1], ?_⟩
      · have := hallok.2.2.1
        simp only [List.length_cons]
        omega
      · intro i hi hi2
        cases i with
        | zero => exact ⟨fun _ => rfl, fun hne => absurd rfl hne⟩
        | succ k =>
          refine ⟨fun hk => absurd hk (Nat.succ_ne_zero k), fun _ => ?_⟩
          exact hallok.2.2.2.2 k (Nat.lt_of_succ_lt_succ (by simpa using hi2))
    | succ k =>
      obtain ⟨cid, hcid⟩ := hok 0 (Nat.succ_pos _) (Nat.succ_ne_zero k).symm
      rw [Nat.add_zero] at hcid
      have hred : syncTasksGo api uid now (t :: ts) c0
          = ⟨{ t with
               cloud_task_id := some cid, needs_sync := false,
               last_synced_at := some now }
              :: (syncTasksGo api uid now ts (c0 + 1)).store,
             (syncTasksGo api uid now ts (c0 + 1)).synced + 1,
             (syncTasksGo api uid now ts (c0 + 1)).errors,
             (syncTasksGo api uid now ts (c0 + 1)).calls⟩ := by
        simp only [syncTasksGo, hsel, if_true, hid, Bool.false_eq_true,
          if_false, hcid]
      have hjk : k < ts.length := Nat.lt_of_succ_lt_succ hj
      have herr2 : api (c0 + 1 + k) = Except.error e := by
        have harg : c0 + 1 + k = c0 + (k + 1) := by omega
        rw [harg]
        exact herr
      have ihr := ih (c0 + 1) k hjk e
        (fun u hu => hall u (List.mem_cons_of_mem t hu)) herr2
        (fun i hi hne => by
          obtain ⟨cid2, h2⟩ := hok (i + 1) (Nat.succ_lt_succ hi)
            (fun hcontra => hne (Nat.succ_injective hcontra))
          refine ⟨cid2, ?_⟩
          have harg : c0 + 1 + i = c0 + (i + 1) := by omega
          rw [harg]
          exact h2)
      rw [hred]
      refine ⟨?_, by simpa using ihr.2.1, ?_, by simp [ihr.2.2.2.1], ?_⟩
      · have := ihr.1
        simp only [List.length_cons]
        omega
      · have := ihr.2.2.1
        simp only [List.length_cons]
        omega
      · intro i hi hi2
        cases i with
        | zero =>
          refine ⟨fun hk => absurd hk.symm (Nat.succ_ne_zero k), fun _ => ?_⟩
          exact ⟨rfl, rfl⟩
        | succ m =>
          have hm : m < ts.length := Nat.lt_of_succ_lt_succ hi
          have hm2 : m < (syncTasksGo api uid now ts (c0 + 1)).store.length :=
            Nat.lt_of_succ_lt_succ (by simpa using hi2)
          refine ⟨fun hk => ?_, fun hne => ?_⟩
          · have hmk : m = k := Nat.succ_injective hk
            exact (ihr.2.2.2.2 m hm hm2).1 hmk
          · have hmk : m ≠ k := fun hcontra => hne (by rw [hcontra])
            exact (ihr.2.2.2.2 m hm hm2).2 hmk

/-- C5: partial sync resilience. When the task push loop runs over `n`
all-pending records (user-owned, `needs_sync`, no remote id yet) and
exactly the j-th remote creation call fails, the run reports
`tasks_synced = n - 1` with exactly one error entry, tagged with the
failed record's local id; the failed record is left exactly as it was
(in particular it keeps `needs_sync = true`), every other record is
marked synced (`needs_sync` cleared, `last_synced_at` stamped), and the
batch is never aborted: all `n` creation calls are attempted. -/
theorem sync_partial_failure_resilient (api : Nat → Except String Nat)
    (uid : Nat) (now : ℚ) (ts : List LocalTask) (c0 j : Nat)
    (hj : j < ts.length) (e : String)
    (hall : ∀ t ∈ ts, t.user_id = uid ∧ t.needs_sync = true ∧
        t.cloud_task_id = none)
    (herr : api (c0 + j) = Except.error e)
    (hok : ∀ i, i < ts.length → i ≠ j → ∃ cid, api (c0 + i) = Except.ok cid) :
    (syncTasksGo api uid now ts c0).synced = ts.length - 1 ∧
    (syncTasksGo api uid now ts c0).errors
        = [taskSyncErrMsg (ts.get ⟨j, hj⟩).id e] ∧
    (syncTasksGo api uid now ts c0).calls = c0 + ts.length ∧
    (syncTasksGo api uid now ts c0).store.length = ts.length ∧
    (∀ hj2 : j < (syncTasksGo api uid now ts c0).store.length,
      ((syncTasksGo api uid now ts c0).store.get ⟨j, hj2⟩).needs_sync
          = true) ∧
    ∀ i (hi : i < ts.length)
        (hi2 : i < (syncTasksGo api uid now ts c0).store.length), i ≠ j →
      ((syncTasksGo api uid now ts c0).store.get ⟨i, hi2⟩).needs_sync
          = false ∧
      ((syncTasksGo api uid now ts c0).store.get ⟨i, hi2⟩).last_synced_at
          = some now := by
  have h := syncTasksGo_one_failure api uid now ts c0 j hj e hall herr hok
  refine ⟨h.1, h.2.1, h.2.2.1, h.2.2.2.1, ?_, ?_⟩
  · intro hj2
    rw [(h.2.2.2.2 j hj hj2).1 rfl]
    exact (hall _ (ts.get_mem j hj)).2.1
  · intro i hi hi2 hne
    exact (h.2.2.2.2 i hi hi2).2 hne

/-- C5 witness: three pending tasks, the second creation call fails;
2 synced, one error naming local id 2, pointwise fates checked. -/
theorem sync_partial_failure_resilient_witness :
    (syncTasksGo
        (fun n => if n = 1 then Except.error "boom" else Except.ok (100 + n))
        1 7
        [⟨1, 1, none, "a", false, false, some 0, none, some 0, none, true⟩,
         ⟨2, 1, none, "b", false, false, some 0, none, some 0, none, true⟩,
         ⟨3, 1, none, "c", false, false, some 0, none, some 0, none, true⟩]
        0).synced = 2 ∧
    (syncTasksGo
        (fun n => if n = 1 then Except.error "boom" else Except.ok (100 + n))
        1 7
        [⟨1, 1, none, "a", false, false, some 0, none, some 0, none, true⟩,
         ⟨2, 1, none, "b", false, false, some 0, none, some 0, none, true⟩,
         ⟨3, 1, none, "c", false, false, some 0, none, some 0, none, true⟩]
        0).errors = [taskSyncErrMsg 2 "boom"] ∧
    ((syncTasksGo
        (fun n => if n = 1 then Except.error "boom" else Except.ok (100 + n))
        1 7
        [⟨1, 1, none, "a", false, false, some 0, none, some 0, none, true⟩,
         ⟨2, 1, none, "b", false, false, some 0, none, some 0, none, true⟩,
         ⟨3, 1, none, "c", false, false, some 0, none, some 0, none, true⟩]
        0).store.get ⟨1, by decide⟩).needs_sync = true ∧
    ((syncTasksGo
        (fun n => if n = 1 then Except.error "boom" else Except.ok (100 + n))
        1 7
        [⟨1, 1, none, "a", false, false, some 0, none, some 0, none, true⟩,
         ⟨2, 1, none, "b", false, false, some 0, none, some 0, none, true⟩,
         ⟨3, 1, none, "c", false, false, some 0, none, some 0, none, true⟩]
        0).store.get ⟨0, by decide⟩).needs_sync = false := by
  have h := sync_partial_failure_resilient
    (fun n => if n = 1 then Except.error "boom" else Except.ok (100 + n))
    1 7
    [⟨1, 1, none, "a", false, false, some 0, none, some 0, none, true⟩,
     ⟨2, 1, none, "b", false, false, some 0, none, some 0, none, true⟩,
     ⟨3, 1, none, "c", false, false, some 0, none, some 0, none, true⟩]
    0 1 (by decide) "boom" (by decide) rfl
    (fun i hi hne => ⟨100 + i, by
      simp only [Nat.zero_add]
      rw [if_neg hne]⟩)
  exact ⟨h.1, h.2.1, h.2.2.2.2.1 (by decide),
    (h.2.2.2.2.2 0 (by decide) (by decide) (by decide)).1⟩

/-- C2: given a remote client whose every call raises (the cloud attempt,
if made at all, yields `Except.error e`), every Hybrid operation returns
exactly the result of the equivalent Local operation — the cloud error is
never surfaced — and the Local backend is attempted exactly once (the
cloud backend at most once), whatever the mode and connectivity answer
feeding `should_use_cloud`. -/
theorem hybrid_always_failing_cloud_falls_back {α : Type} (mode : Mode)
    (conn : Bool) (e : String) (localResult : α) :
    (tryCloudFallbackLocal (shouldUseCloud mode conn) (Except.error e)
        localResult).1 = localResult ∧
    ((tryCloudFallbackLocal (shouldUseCloud mode conn) (Except.error e)
        localResult).2.count Backend.localStore) = 1 ∧
    ((tryCloudFallbackLocal (shouldUseCloud mode conn) (Except.error e)
        localResult).2.count Backend.cloud) ≤ 1 := by
  cases mode <;> cases conn <;>
      simp [tryCloudFallbackLocal, shouldUseCloud, List.count_cons,
        List.count_nil] <;>
    decide

/-- C8: a malformed persisted timer state file never propagates a load
error (the embedding of `_load_state` is total on every file content,
`missing`, `corrupt` or `good`): on the corrupt path every field is reset
to the fresh idle values and the state file is removed, and a subsequent
status query reports an inactive timer. -/
theorem corrupt_state_file_resets_idle (now : ℚ) (s : TimerState) :
    TimerDaemon.load_state now StateFile.corrupt s
      = (initialTimerState, StateFile.missing) ∧
    initialTimerState.active = false ∧
    (TimerDaemon.get_status now StateFile.corrupt s).1 = TimerStatus.idle := by
  refine ⟨rfl, rfl, ?_⟩
  simp [TimerDaemon.get_status, TimerDaemon.load_state, initialTimerState]

/-- C3 evaluation at the failing input: `start_task` applied to a task
that is already completed (`is_completed = true`, `is_active = false`)
succeeds and returns a task with `is_completed = true` AND
`is_active = true` — the code never checks `is_completed`, so the
mutual-exclusivity invariant of the two flags is violated by this
reachable call. -/
theorem start_task_on_completed_task_sets_both_flags :
    (LocalDataManager.start_task 0 1 1
        [{ id := 1, user_id := 1, cloud_task_id := none,
           description := "written report", is_completed := true,
           is_active := false, created_at := some 0, completed_at := some 0,
           updated_at := some 0, last_synced_at := none,
           needs_sync := false }]).map
      (fun p => (p.2.is_completed, p.2.is_active))
      = Except.ok (true, true) := by
  rfl

/-- C10: `sync_all` is total at its public interface: for every outcome of
its collaborators (mode, connectivity probe, stored token, local store
acquisition given as `Except`, remote api oracles, and any unexpected
internal exception) it returns either an error-only dictionary — produced
exactly by local-only mode, missing connectivity, a falsy auth token, or
an internal error — or the full report dictionary with `tasks_synced`,
`pomodoros_synced` and the accumulated `errors` list. -/
theorem sync_all_total_interface (mode : Mode) (conn : Bool)
    (token : Option String) (internalError : Option String) (uid : Nat)
    (now : ℚ) (taskStore : Except String (List LocalTask))
    (pomStore : Except String (List LocalPomodoro))
    (a1 : Nat → Except String Nat) (a2 : Nat → Except String Nat)
    (a3 : Nat → Except String Unit) :
    ((∃ m, sync_all mode conn token internalError uid now taskStore pomStore
        a1 a2 a3 = SyncAllResult.errOnly m) ∨
     (∃ a b es, sync_all mode conn token internalError uid now taskStore
        pomStore a1 a2 a3 = SyncAllResult.report a b es)) ∧
    (mode = Mode.localMode →
      sync_all mode conn token internalError uid now taskStore pomStore a1 a2 a3
        = SyncAllResult.errOnly "Cannot sync in local-only mode") ∧
    (mode ≠ Mode.localMode → conn = false →
      sync_all mode conn token internalError uid now taskStore pomStore a1 a2 a3
        = SyncAllResult.errOnly "No internet connection") ∧
    (mode ≠ Mode.localMode → conn = true → tokenTruthy token = false →
      sync_all mode conn token internalError uid now taskStore pomStore a1 a2 a3
        = SyncAllResult.errOnly "Not authenticated with cloud") ∧
    (∀ e, mode ≠ Mode.localMode → conn = true → tokenTruthy token = true →
      internalError = some e →
      sync_all mode conn token internalError uid now taskStore pomStore a1 a2 a3
        = SyncAllResult.errOnly e) ∧
    (mode ≠ Mode.localMode → conn = true → tokenTruthy token = true →
      internalError = none →
      sync_all mode conn token internalError uid now taskStore pomStore a1 a2 a3
        = SyncAllResult.report (syncTasksToCloud a1 uid now taskStore).synced
            (syncPomodorosToCloud a2 a3 uid now pomStore).synced
            ((syncTasksToCloud a1 uid now taskStore).errors
              ++ (syncPomodorosToCloud a2 a3 uid now pomStore).errors)) := by
  unfold sync_all
  by_cases hm : mode = Mode.localMode <;>
    cases conn <;>
      cases htok : tokenTruthy token <;>
        cases internalError <;>
          simp [hm, htok]

/-- C10 witness: concrete instances of the interface dichotomy — the
local-mode short-circuit, the missing-token short-circuit, and the full
report on an empty store. -/
theorem sync_all_total_interface_witness :
    SyncEngine.sync_all Mode.localMode true (some "tok") none 1 0
        (Except.ok []) (Except.ok []) (fun _ => Except.ok 1)
        (fun _ => Except.ok 1) (fun _ => Except.ok ())
      = SyncAllResult.errOnly "Cannot sync in local-only mode" ∧
    SyncEngine.sync_all Mode.hybrid true (some "") none 1 0
        (Except.ok []) (Except.ok []) (fun _ => Except.ok 1)
        (fun _ => Except.ok 1) (fun _ => Except.ok ())
      = SyncAllResult.errOnly "Not authenticated with cloud" ∧
    SyncEngine.sync_all Mode.hybrid true (some "tok") none 1 0
        (Except.ok []) (Except.ok []) (fun _ => Except.ok 1)
        (fun _ => Except.ok 1) (fun _ => Except.ok ())
      = SyncAllResult.report 0 0 [] := by
  refine ⟨?_, ?_, ?_⟩
  · exact (sync_all_total_interface Mode.localMode true (some "tok") none 1 0
      (Except.ok []) (Except.ok []) (fun _ => Except.ok 1)
      (fun _ => Except.ok 1) (fun _ => Except.ok ())).2.1 rfl
  · exact (sync_all_total_interface Mode.hybrid true (some "") none 1 0
      (Except.ok []) (Except.ok []) (fun _ => Except.ok 1)
      (fun _ => Except.ok 1) (fun _ => Except.ok ())).2.2.2.1
      (by decide) rfl (by decide)
  · exact (sync_all_total_interface Mode.hybrid true (some "tok") none 1 0
      (Except.ok []) (Except.ok []) (fun _ => Except.ok 1)
      (fun _ => Except.ok 1) (fun _ => Except.ok ())).2.2.2.2.2
      (by decide) rfl (by decide) rfl


/-- `intTrunc` dominates every integer below the rational. -/
theorem le_intTrunc (d : ℤ) (x : ℚ) (h : (d : ℚ) ≤ x) : d ≤ intTrunc x := by
  unfold intTrunc
  split
  · exact Int.le_floor.mpr h
  · exact_mod_cast h.trans (Int.le_ceil x)

/-- On nonnegative rationals `intTrunc` is the floor. -/
theorem intTrunc_of_nonneg (x : ℚ) (h : 0 ≤ x) : intTrunc x = ⌊x⌋ := by
  unfold intTrunc
  rw [if_pos h]

/-- Status of an active, unpaused timer with a truthy start time: idle
exactly when the wall-clock recomputation has reached zero, otherwise the
running report with the recomputed (never negative) remaining time. -/
theorem get_status_char (now t0 : ℚ) (s : TimerState)
    (hact : s.active = true) (hpau : s.paused = false)
    (hst : s.start_time = some t0) (ht0 : t0 ≠ 0) :
    (TimerDaemon.get_status now (StateFile.good s) s).1
      = if max 0 (s.duration_seconds - intTrunc (now - t0)) ≤ 0 then
          TimerStatus.idle
        else
          TimerStatus.running false s.session_type s.task_description
            s.task_id (max 0 (s.duration_seconds - intTrunc (now - t0))) := by
  have htr : startTimeTruthy s.start_time = true := by
    rw [hst]
    simp [startTimeTruthy, ht0]
  by_cases hr : max 0 (s.duration_seconds - intTrunc (now - t0)) ≤ 0
  · have hload : TimerDaemon.loadStateUpdate now s
        = { s with
            remaining_seconds := max 0 (s.duration_seconds - intTrunc (now - t0)),
            active := false } := by
      unfold TimerDaemon.loadStateUpdate
      rw [hact, htr, hst]
      simp only [Bool.and_self, if_true, hpau, Bool.not_false, Option.getD_some]
      rw [if_pos hr]
    simp only [TimerDaemon.get_status, TimerDaemon.load_state, hload]
    simp [hr]
  · have hload : TimerDaemon.loadStateUpdate now s
        = { s with
            remaining_seconds :=
              max 0 (s.duration_seconds - intTrunc (now - t0)) } := by
      unfold TimerDaemon.loadStateUpdate
      rw [hact, htr, hst]
      simp only [Bool.and_self, if_true, hpau, Bool.not_false, Option.getD_some]
      rw [if_neg hr]
    simp only [TimerDaemon.get_status, TimerDaemon.load_state, hload]
    simp [hr, hact, hpau, hst, startTimeTruthy, ht0]

/-- C7: status reads recompute remaining time from wall-clock elapsed:
for an active unpaused timer with truthy start time `t0`, a status query
at any `now` with `now - t0` beyond the duration reports the timer as
inactive (auto-completed); in every case the query reports either idle or
a running timer whose remaining time is `max 0 (duration - int(now - t0))`
— recomputed from `now` and `start_time`, never read from the stored
`remaining_seconds`, and never negative. -/
theorem status_recomputed_never_negative (now t0 : ℚ) (s : TimerState)
    (hact : s.active = true) (hpau : s.paused = false)
    (hst : s.start_time = some t0) (ht0 : t0 ≠ 0) :
    ((s.duration_seconds : ℚ) < now - t0 →
      (TimerDaemon.get_status now (StateFile.good s) s).1 = TimerStatus.idle) ∧
    ((TimerDaemon.get_status now (StateFile.good s) s).1 = TimerStatus.idle ∨
      (TimerDaemon.get_status now (StateFile.good s) s).1
        = TimerStatus.running false s.session_type s.task_description
            s.task_id (max 0 (s.duration_seconds - intTrunc (now - t0)))) ∧
    (0 : ℤ) ≤ max 0 (s.duration_seconds - intTrunc (now - t0)) := by
  rw [get_status_char now t0 s hact hpau hst ht0]
  refine ⟨?_, ?_, le_max_left 0 _⟩
  · intro hlt
    have hle : s.duration_seconds ≤ intTrunc (now - t0) :=
      le_intTrunc _ _ hlt.le
    rw [if_pos (by omega : max 0 (s.duration_seconds - intTrunc (now - t0)) ≤ 0)]
  · by_cases hr : max 0 (s.duration_seconds - intTrunc (now - t0)) ≤ 0
    · left
      rw [if_pos hr]
    · right
      rw [if_neg hr]

/-- C7 witness: a 60-second timer started at `t0 = 10`, queried at
`now = 81` (71 seconds elapsed): status is idle, and the recomputed
remaining value is nonnegative. -/
theorem status_recomputed_never_negative_witness :
    (TimerDaemon.get_status 81
        (StateFile.good ⟨true, false, some 10, 60, 60, "focus", "", none⟩)
        ⟨true, false, some 10, 60, 60, "focus", "", none⟩).1
      = TimerStatus.idle ∧
    (0 : ℤ) ≤ max 0 ((60 : ℤ) - intTrunc ((81 : ℚ) - 10)) := by
  have h := status_recomputed_never_negative 81 10
    ⟨true, false, some 10, 60, 60, "focus", "", none⟩ rfl rfl rfl (by norm_num)
  exact ⟨h.1 (by norm_num), h.2.2⟩

/-- Pausing an active, unpaused, still-running timer freezes
`remaining_seconds` to `duration - int(elapsed)` and saves the state. -/
theorem pause_timer_pauses (t1 t0 : ℚ) (s : TimerState)
    (hact : s.active = true) (hpau : s.paused = false)
    (hst : s.start_time = some t0) (ht0 : t0 ≠ 0)
    (hrun : intTrunc (t1 - t0) < s.duration_seconds) :
    TimerDaemon.pause_timer t1 (StateFile.good s) s
      = some ({ s with
                paused := true,
                remaining_seconds := s.duration_seconds - intTrunc (t1 - t0) },
              StateFile.good { s with
                paused := true,
                remaining_seconds := s.duration_seconds - intTrunc (t1 - t0) },
              true, "Timer paused") := by
  have htr : startTimeTruthy s.start_time = true := by
    rw [hst]
    simp [startTimeTruthy, ht0]
  have hmax : max 0 (s.duration_seconds - intTrunc (t1 - t0))
      = s.duration_seconds - intTrunc (t1 - t0) := max_eq_right (by omega)
  have hload : TimerDaemon.loadStateUpdate t1 s
      = { s with
          remaining_seconds := s.duration_seconds - intTrunc (t1 - t0) } := by
    unfold TimerDaemon.loadStateUpdate
    rw [hact, htr, hst]
    simp only [Bool.and_self, if_true, hpau, Bool.not_false, Option.getD_some,
      hmax]
    rw [if_neg (by omega)]
  simp only [TimerDaemon.pause_timer, TimerDaemon.load_state, hload]
  simp [hact, hpau, hst, hmax]

/-- Resuming a paused timer resets `start_time` to now and
`duration_seconds` to the frozen remaining value. -/
theorem pause_timer_resumes (t2 t0 : ℚ) (s : TimerState)
    (hact : s.active = true) (hpau : s.paused = true)
    (hst : s.start_time = some t0) (ht0 : t0 ≠ 0) :
    TimerDaemon.pause_timer t2 (StateFile.good s) s
      = some ({ s with
                paused := false, start_time := some t2,
                duration_seconds := s.remaining_seconds },
              StateFile.good { s with
                paused := false, start_time := some t2,
                duration_seconds := s.remaining_seconds },
              true, "Timer resumed") := by
  have htr : startTimeTruthy s.start_time = true := by
    rw [hst]
    simp [startTimeTruthy, ht0]
  have hload : TimerDaemon.loadStateUpdate t2 s = s := by
    unfold TimerDaemon.loadStateUpdate
    rw [hact, htr]
    simp [hpau]
  simp only [TimerDaemon.pause_timer, TimerDaemon.load_state, hload]
  simp [hact, hpau]

/-- C6: pause/resume conserves the remaining duration. For a timer of
duration `d` started at `t0` and paused at `t1` (elapsed `e = t1 - t0`
with `0 ≤ e < d`), pausing freezes `remaining_seconds` to `d - ⌊e⌋`
(`duration - int(elapsed)`, floored at zero — here positive); resuming at
`t2` resets `start_time` to `t2` and `duration_seconds` to the frozen
value, so a status query at `t2 + x` reports the countdown finished
exactly when `x ≥ d - ⌊e⌋` — and `d - ⌊e⌋` is within one tick interval
(one second) of the ideal `d - e` further seconds of wall clock. -/
theorem pause_resume_conserves_remaining (t0 t1 t2 x : ℚ) (d r0 : ℤ)
    (st td : String) (tid : Option Nat)
    (ht0 : 0 < t0) (he0 : 0 ≤ t1 - t0) (he1 : t1 - t0 < (d : ℚ))
    (ht2 : 0 < t2) (hx : 0 ≤ x) :
    TimerDaemon.pause_timer t1
        (StateFile.good ⟨true, false, some t0, d, r0, st, td, tid⟩)
        ⟨true, false, some t0, d, r0, st, td, tid⟩
      = some (⟨true, true, some t0, d, d - ⌊t1 - t0⌋, st, td, tid⟩,
          StateFile.good ⟨true, true, some t0, d, d - ⌊t1 - t0⌋, st, td, tid⟩,
          true, "Timer paused") ∧
    TimerDaemon.pause_timer t2
        (StateFile.good ⟨true, true, some t0, d, d - ⌊t1 - t0⌋, st, td, tid⟩)
        ⟨true, true, some t0, d, d - ⌊t1 - t0⌋, st, td, tid⟩
      = some (⟨true, false, some t2, d - ⌊t1 - t0⌋, d - ⌊t1 - t0⌋, st, td,
            tid⟩,
          StateFile.good ⟨true, false, some t2, d - ⌊t1 - t0⌋, d - ⌊t1 - t0⌋,
            st, td, tid⟩,
          true, "Timer resumed") ∧
    ((TimerDaemon.get_status (t2 + x)
        (StateFile.good ⟨true, false, some t2, d - ⌊t1 - t0⌋, d - ⌊t1 - t0⌋,
          st, td, tid⟩)
        ⟨true, false, some t2, d - ⌊t1 - t0⌋, d - ⌊t1 - t0⌋, st, td, tid⟩).1
        = TimerStatus.idle ↔ ((d - ⌊t1 - t0⌋ : ℤ) : ℚ) ≤ x) ∧
    (d : ℚ) - (t1 - t0) ≤ ((d - ⌊t1 - t0⌋ : ℤ) : ℚ) ∧
    ((d - ⌊t1 - t0⌋ : ℤ) : ℚ) < (d : ℚ) - (t1 - t0) + 1 := by
  have ht0' : t0 ≠ 0 := ne_of_gt ht0
  have htr : intTrunc (t1 - t0) = ⌊t1 - t0⌋ := intTrunc_of_nonneg _ he0
  have hrun : intTrunc (t1 - t0) < d := by
    rw [htr]
    exact Int.floor_lt.mpr he1
  refine ⟨?_, ?_, ?_, ?_, ?_⟩
  · have h := pause_timer_pauses t1 t0 ⟨true, false, some t0, d, r0, st, td,
      tid⟩ rfl rfl rfl ht0' hrun
    rw [htr] at h
    exact h
  · have h := pause_timer_resumes t2 t0 ⟨true, true, some t0, d,
      d - ⌊t1 - t0⌋, st, td, tid⟩ rfl rfl rfl ht0'
    exact h
  · rw [get_status_char (t2 + x) t2 ⟨true, false, some t2, d - ⌊t1 - t0⌋,
      d - ⌊t1 - t0⌋, st, td, tid⟩ rfl rfl rfl (ne_of_gt ht2)]
    show (if max 0 ((d - ⌊t1 - t0⌋) - intTrunc (t2 + x - t2)) ≤ 0 then
        TimerStatus.idle
      else TimerStatus.running false st td tid
        (max 0 ((d - ⌊t1 - t0⌋) - intTrunc (t2 + x - t2))))
        = TimerStatus.idle ↔ ((d - ⌊t1 - t0⌋ : ℤ) : ℚ) ≤ x
    have harg : t2 + x - t2 = x := by ring
    rw [harg, intTrunc_of_nonneg x hx]
    by_cases hc : max 0 ((d - ⌊t1 - t0⌋) - ⌊x⌋) ≤ 0
    · rw [if_pos hc]
      simp only [true_iff, iff_true_intro rfl]
      have h1 : d - ⌊t1 - t0⌋ ≤ ⌊x⌋ := by omega
      have h2 : ((d - ⌊t1 - t0⌋ : ℤ) : ℚ) ≤ (⌊x⌋ : ℚ) := by exact_mod_cast h1
      exact h2.trans (Int.floor_le x)
    · rw [if_neg hc]
      constructor
      · intro hcontra
        exact absurd hcontra (by simp)
      · intro hle
        exfalso
        have h1 : d - ⌊t1 - t0⌋ ≤ ⌊x⌋ :=
          Int.le_floor.mpr (by exact_mod_cast hle)
        omega
  · have hf : (⌊t1 - t0⌋ : ℚ) ≤ t1 - t0 := Int.floor_le _
    push_cast
    linarith
  · have hf : t1 - t0 < (⌊t1 - t0⌋ : ℚ) + 1 := Int.lt_floor_add_one _
    push_cast
    linarith

/-- C6 witness: a 600-second (10-minute) timer started at `t0 = 1`,
paused at `t1 = 181` (180 seconds elapsed), resumed at `t2 = 200`,
status queried 420 seconds after the resume. -/
theorem pause_resume_conserves_remaining_witness :
    TimerDaemon.pause_timer 181
        (StateFile.good ⟨true, false, some 1, 600, 600, "focus", "", none⟩)
        ⟨true, false, some 1, 600, 600, "focus", "", none⟩
      = some (⟨true, true, some 1, 600, 600 - ⌊(181 : ℚ) - 1⌋, "focus", "",
            none⟩,
          StateFile.good ⟨true, true, some 1, 600, 600 - ⌊(181 : ℚ) - 1⌋,
            "focus", "", none⟩,
          true, "Timer paused") ∧
    TimerDaemon.pause_timer 200
        (StateFile.good ⟨true, true, some 1, 600, 600 - ⌊(181 : ℚ) - 1⌋,
          "focus", "", none⟩)
        ⟨true, true, some 1, 600, 600 - ⌊(181 : ℚ) - 1⌋, "focus", "", none⟩
      = some (⟨true, false, some 200, 600 - ⌊(181 : ℚ) - 1⌋,
            600 - ⌊(181 : ℚ) - 1⌋, "focus", "", none⟩,
          StateFile.good ⟨true, false, some 200, 600 - ⌊(181 : ℚ) - 1⌋,
            600 - ⌊(181 : ℚ) - 1⌋, "focus", "", none⟩,
          true, "Timer resumed") ∧
    ((TimerDaemon.get_status (200 + 420)
        (StateFile.good ⟨true, false, some 200, 600 - ⌊(181 : ℚ) - 1⌋,
          600 - ⌊(181 : ℚ) - 1⌋, "focus", "", none⟩)
        ⟨true, false, some 200, 600 - ⌊(181 : ℚ) - 1⌋, 600 - ⌊(181 : ℚ) - 1⌋,
          "focus", "", none⟩).1
        = TimerStatus.idle ↔ ((600 - ⌊(181 : ℚ) - 1⌋ : ℤ) : ℚ) ≤ 420) ∧
    (600 : ℚ) - ((181 : ℚ) - 1) ≤ ((600 - ⌊(181 : ℚ) - 1⌋ : ℤ) : ℚ) ∧
    ((600 - ⌊(181 : ℚ) - 1⌋ : ℤ) : ℚ) < (600 : ℚ) - ((181 : ℚ) - 1) + 1 :=
  pause_resume_conserves_remaining 1 181 200 420 600 600 "focus" "" none
    (by norm_num) (by norm_num) (by norm_num) (by norm_num) (by norm_num)

end FlowState
